import Mathlib

set_option maxRecDepth 8000

/-!
Shallow embedding of the Graph-RAG ingestion-and-retrieval pipeline
(`src/utils/preprocessing.py`, `src/components/{embeddings,llms,graph_db,knowledge_graph}.py`,
`src/options/{base_options,train_options}.py`, `src/train.py`).

Document text is modelled as a list of code points (`List Nat`), fallible Python
code as `Except PyError`, and Python attribute lookup on the parsed options
namespace as an explicit name table copied from the `add_argument` calls.
-/

namespace GraphRAG

/-- Python exception kinds actually raised by the sources. -/
inductive PyError where
  | attributeError (name : String)
  | valueError (msg : String)
  | runtimeError (msg : String)
  | typeError (msg : String)
  | fileNotFoundError (msg : String)
deriving DecidableEq

/-- ASCII lowercasing of a string, as used for `path.suffix.lower()` and
`e.lower()` in `DocumentProcessor._load_all_documents`. -/
def pyLower (s : String) : String := ⟨s.data.map Char.toLower⟩

/-! ## Chunker

`DocumentProcessor.process_documents` delegates the actual splitting to the
external `RecursiveCharacterTextSplitter` (langchain), which is not part of
this repository's sources. -/

/-- Modelled from the spec: the splitting algorithm of §4.2 — content is packed
into windows of at most `chunk_size` characters with exactly `chunk_overlap`
characters of trailing context carried into the next window; for text without
higher-priority separators this is character-granularity windowing.  `fuel`
makes the recursion structural; fuel `s.length` suffices whenever
`chunk_overlap < chunk_size` (each step drops `cs - ov ≥ 1` characters). -/
def splitGo (cs ov : Nat) : Nat → List α → List (List α)
  | _, [] => []
  | 0, a :: as => [a :: as]
  | fuel + 1, a :: as =>
    if (a :: as).length ≤ cs then [a :: as]
    else (a :: as).take cs :: splitGo cs ov fuel ((a :: as).drop (cs - ov))

/-- Split one document text into overlapping windows (spec §4.2). -/
def splitText (cs ov : Nat) (s : List α) : List (List α) :=
  splitGo cs ov s.length s

/-- `splitter.split_documents(cleaned_docs)`: every cleaned document is split,
in order, into one flat batch of chunk texts. -/
def splitDocuments (cs ov : Nat) (docs : List (List α)) : List (List α) :=
  (docs.map (splitText cs ov)).flatten

/-- A chunk as returned by `DocumentProcessor.process_documents`: the chunk
text plus the chunk-level metadata added in step 4 (lines 116-123 of
`src/utils/preprocessing.py`). -/
structure Chunk (α : Type) where
  text : List α
  chunk_index : Nat
  chunk_size : Nat
  chunk_overlap : Nat
deriving DecidableEq

/-- Steps 3-4 of `DocumentProcessor.process_documents`: split all cleaned
documents into one batch, then `for idx, doc in enumerate(chunked_docs)`
attach `chunk_index := idx` (plus `chunk_size` / `chunk_overlap`). -/
def chunkDocuments (cs ov : Nat) (docs : List (List α)) : List (Chunk α) :=
  (splitDocuments cs ov docs).enum.map (fun p => ⟨p.2, p.1, cs, ov⟩)

/-- Reassembly of chunk texts in chunk-index order: keep the first chunk whole
and strip the leading `ov`-character overlap region from every later chunk. -/
def reassemble (ov : Nat) : List (List α) → List α
  | [] => []
  | c :: rest => c ++ (rest.map (List.drop ov)).flatten

/-! ## DocumentProcessor (`src/utils/preprocessing.py`) -/

/-- A langchain `Document`: page text (metadata is irrelevant to the claims
and omitted). -/
structure Doc where
  text : List Nat
deriving DecidableEq

/-- A file found by `input_dir.rglob("*")`: its extension (`path.suffix`) and,
for PDFs, the pages the external `PyPDFLoader` would produce for it. -/
structure FileEntry where
  suffix : String
  pages : List (List Nat)
deriving DecidableEq

/-- `DocumentProcessor._load_pdf`: the external `PyPDFLoader` yields the file's
pages as documents (the source also attaches source/file-name metadata, which
is not modelled). -/
def load_pdf (f : FileEntry) : List Doc :=
  f.pages.map Doc.mk

/-- The methods `class DocumentProcessor` actually defines
(`src/utils/preprocessing.py`): note that `_clean_text` and `_load_text`,
though called, are NOT among them. -/
def documentProcessorMethods : List String :=
  ["__init__", "_load_all_documents", "_load_pdf", "process_documents"]

/-- `DocumentProcessor._load_all_documents`, given the lowered allowed-extension
set and the files of the directory scan in discovery order.  For an allowed
`.txt`/`.md` file the source calls `self._load_text(path)`; `DocumentProcessor`
defines no `_load_text` (see `documentProcessorMethods`), so that attribute
lookup itself raises `AttributeError` — the loading body is unreachable and
therefore not modelled.  Any other allowed extension raises `ValueError`. -/
def load_all_documents (exts : List String) : List FileEntry → Except PyError (List Doc)
  | [] => Except.ok []
  | f :: fs =>
    if exts.contains (pyLower f.suffix) then
      if pyLower f.suffix = ".pdf" then
        match load_all_documents exts fs with
        | Except.ok rest => Except.ok (load_pdf f ++ rest)
        | Except.error e => Except.error e
      else if pyLower f.suffix = ".txt" ∨ pyLower f.suffix = ".md" then
        Except.error (PyError.attributeError "_load_text")
      else
        Except.error (PyError.valueError ("Unsupported file extension: " ++ f.suffix))
    else
      load_all_documents exts fs

/-- Step 2 of `process_documents`: `text = self._clean_text(d.page_content)`.
`DocumentProcessor` defines no `_clean_text` (see `documentProcessorMethods`),
so the first loop iteration raises `AttributeError`; the rest of the loop body
(emptiness filter, `Document` rebuild) is unreachable and not modelled.  An
empty document list never enters the loop and cleans to the empty list. -/
def clean_docs : List Doc → Except PyError (List Doc)
  | [] => Except.ok []
  | _ :: _ => Except.error (PyError.attributeError "_clean_text")

/-- The attributes of the options object that `DocumentProcessor` reads
(its class docstring: `input_dir`, `chunk_size`, `chunk_overlap`, and the
optional `extensions`).  A `none` field models an absent attribute. -/
structure ProcOpt where
  input_dir : Option String
  extensions : Option (List String)
  chunk_size : Option Nat
  chunk_overlap : Option Nat

/-- `DocumentProcessor.process_documents` (together with the
`_load_all_documents` call it makes): attribute reads without a default
(`self._opt.input_dir`, `self._opt.chunk_size`, `self._opt.chunk_overlap`)
raise `AttributeError` when absent; `getattr(self._opt, "extensions", [".pdf"])`
falls back to `[".pdf"]`.  `dirExists` models `input_dir.exists()` and `files`
the recursive directory scan. -/
def process_documents (o : ProcOpt) (dirExists : Bool) (files : List FileEntry) :
    Except PyError (List (Chunk Nat)) :=
  match o.input_dir with
  | none => Except.error (PyError.attributeError "input_dir")
  | some _ =>
    let exts := (o.extensions.getD [".pdf"]).map pyLower
    if dirExists = false then
      Except.error (PyError.fileNotFoundError "Input directory not found")
    else
      match load_all_documents exts files with
      | Except.error e => Except.error e
      | Except.ok raw =>
        match clean_docs raw with
        | Except.error e => Except.error e
        | Except.ok cleaned =>
          match o.chunk_size with
          | none => Except.error (PyError.attributeError "chunk_size")
          | some cs =>
            match o.chunk_overlap with
            | none => Except.error (PyError.attributeError "chunk_overlap")
            | some ov => Except.ok (chunkDocuments cs ov (cleaned.map Doc.text))

/-! ## Options layer (`src/options/base_options.py`, `src/options/train_options.py`) -/

/-- A Python attribute value on the parsed argparse namespace. -/
inductive PyVal where
  | pyNone
  | str (s : String)
  | strList (l : List String)
  | boolean (b : Bool)
  | nat (n : Nat)
deriving DecidableEq

/-- The values a parsed `TrainOptions` namespace carries, one field per
`add_argument` call in `base_options.py` and `train_options.py`. -/
structure TrainOptConfig where
  LangChainAPIKey : String
  OpenAPIKey : String
  Neo4jURI : String
  Neo4jUserName : String
  Neo4jPassword : String
  Neo4jDatabase : String
  LLMProvider : List String
  OpenAILLM : List String
  AntropicILLM : List String
  GoogleLLM : List String
  EmbeddingModel : String
  ChunkSize : Nat
  ChunkOverlap : Nat
  AllowedNodes : String
  AllowedRelationships : List String
  NodeProperties : Bool
  RelationshipProperties : Bool
  ClearGraph : Bool
  NodeLabel : String
  TextNodeProperties : String
  EmbeddingNodeProperty : String
  VectorIndexName : String
  KeywordIndexName : String
  SearchType : String

/-- Python attribute lookup on the parsed `TrainOptions` namespace: exactly the
argument names declared in `BaseOptions.initialize` and
`TrainOptions.initialize` resolve; everything else is an absent attribute. -/
def trainOptLookup (o : TrainOptConfig) (name : String) : Option PyVal :=
  match name with
  | "LangChainAPIKey" => some (PyVal.str o.LangChainAPIKey)
  | "OpenAPIKey" => some (PyVal.str o.OpenAPIKey)
  | "Neo4jURI" => some (PyVal.str o.Neo4jURI)
  | "Neo4jUserName" => some (PyVal.str o.Neo4jUserName)
  | "Neo4jPassword" => some (PyVal.str o.Neo4jPassword)
  | "Neo4jDatabase" => some (PyVal.str o.Neo4jDatabase)
  | "LLMProvider" => some (PyVal.strList o.LLMProvider)
  | "OpenAILLM" => some (PyVal.strList o.OpenAILLM)
  | "AntropicILLM" => some (PyVal.strList o.AntropicILLM)
  | "GoogleLLM" => some (PyVal.strList o.GoogleLLM)
  | "EmbeddingModel" => some (PyVal.str o.EmbeddingModel)
  | "ChunkSize" => some (PyVal.nat o.ChunkSize)
  | "ChunkOverlap" => some (PyVal.nat o.ChunkOverlap)
  | "AllowedNodes" => some (PyVal.str o.AllowedNodes)
  | "AllowedRelationships" => some (PyVal.strList o.AllowedRelationships)
  | "NodeProperties" => some (PyVal.boolean o.NodeProperties)
  | "RelationshipProperties" => some (PyVal.boolean o.RelationshipProperties)
  | "ClearGraph" => some (PyVal.boolean o.ClearGraph)
  | "NodeLabel" => some (PyVal.str o.NodeLabel)
  | "TextNodeProperties" => some (PyVal.str o.TextNodeProperties)
  | "EmbeddingNodeProperty" => some (PyVal.str o.EmbeddingNodeProperty)
  | "VectorIndexName" => some (PyVal.str o.VectorIndexName)
  | "KeywordIndexName" => some (PyVal.str o.KeywordIndexName)
  | "SearchType" => some (PyVal.str o.SearchType)
  | _ => none

/-- Python `getattr(opt, name, default)` on the `TrainOptions` namespace. -/
def pyGetattr (o : TrainOptConfig) (name : String) (dflt : PyVal) : PyVal :=
  (trainOptLookup o name).getD dflt

/-- The options view `DocumentProcessor` gets when handed the parsed
`TrainOptions` namespace (as `train.run` does): none of `input_dir`,
`extensions`, `chunk_size`, `chunk_overlap` is defined there. -/
def procOptOfTrainOpt (o : TrainOptConfig) : ProcOpt :=
  { input_dir :=
      match trainOptLookup o "input_dir" with
      | some (PyVal.str s) => some s
      | _ => none
  , extensions :=
      match trainOptLookup o "extensions" with
      | some (PyVal.strList l) => some l
      | _ => none
  , chunk_size :=
      match trainOptLookup o "chunk_size" with
      | some (PyVal.nat n) => some n
      | _ => none
  , chunk_overlap :=
      match trainOptLookup o "chunk_overlap" with
      | some (PyVal.nat n) => some n
      | _ => none }

/-- The parsed namespace with every default value of `base_options.py` and
`train_options.py`. -/
def sourceDefaultOpt : TrainOptConfig :=
  { LangChainAPIKey := "<yoour-api-key>"
  , OpenAPIKey := "<your-api-key>"
  , Neo4jURI := "neo4j+s://your-neo4j-instance"
  , Neo4jUserName := "your-username"
  , Neo4jPassword := "your-password"
  , Neo4jDatabase := "your-database"
  , LLMProvider := ["OpenAI", "Antropic", "Google"]
  , OpenAILLM := ["gpt-4o", "gpt-4o-mini", "gpt-4", "gpt-3.5-turbo"]
  , AntropicILLM := ["claude-2", "claude-instant-100k", "claude-1", "claude-1.3"]
  , GoogleLLM := ["claude-2", "claude-instant-100k", "claude-1", "claude-1.3"]
  , EmbeddingModel := "OpenAI"
  , ChunkSize := 200
  , ChunkOverlap := 40
  , AllowedNodes := "Patient,Disease,Medication,Test,Symptom,Doctor"
  , AllowedRelationships := []
  , NodeProperties := false
  , RelationshipProperties := false
  , ClearGraph := true
  , NodeLabel := "Patient"
  , TextNodeProperties := "id,text"
  , EmbeddingNodeProperty := "embedding"
  , VectorIndexName := "vector_index"
  , KeywordIndexName := "entity_index"
  , SearchType := "hybrid" }

/-! ## GraphExtractor (`src/components/knowledge_graph.py`) -/

/-- A candidate graph node produced by the extraction capability. -/
structure GraphNode where
  id : String
  label : String
deriving DecidableEq

/-- A candidate relationship produced by the extraction capability. -/
structure GraphRel where
  source : GraphNode
  target : GraphNode
  typ : String
deriving DecidableEq

/-- A graph document / fragment: nodes plus relationships. -/
structure GraphFragment where
  nodes : List GraphNode
  relationships : List GraphRel
deriving DecidableEq

/-- Is a label (or relationship type) admitted by an allow-list argument?
Modelled from the spec (§4.3): the external `LLMGraphTransformer` applies no
restriction for `None` or an empty list, and otherwise keeps only listed
labels. -/
def labelAllowed (allowed : Option (List String)) (label : String) : Bool :=
  match allowed with
  | none => true
  | some [] => true
  | some l => l.contains label

/-- Modelled from the spec (§4.3): the post-filtering the external
`LLMGraphTransformer` applies to one candidate fragment — a node with a
disallowed label is dropped together with every relationship referencing it;
a relationship with a disallowed type is dropped, its endpoints kept. -/
def filterFragment (allowedNodes allowedRels : Option (List String))
    (f : GraphFragment) : GraphFragment :=
  { nodes := f.nodes.filter (fun n => labelAllowed allowedNodes n.label)
  , relationships := f.relationships.filter (fun r =>
      labelAllowed allowedNodes r.source.label
      && labelAllowed allowedNodes r.target.label
      && labelAllowed allowedRels r.typ) }

/-- Conversion of the constructor argument `LLMGraphTransformer` receives to an
allow-list: only a list value restricts; in `create_knowledge_graph` the value
is always the `getattr` default `None` (see `create_knowledge_graph`). -/
def asAllowedList : PyVal → Option (List String)
  | PyVal.strList l => some l
  | _ => none

/-- `create_knowledge_graph` (`src/components/knowledge_graph.py`): guards the
graph connection, then builds `LLMGraphTransformer` with
`allowed_nodes := getattr(opt, "allowed_nodes", None)` and
`allowed_relationships := getattr(opt, "allowed_relationships", None)` — note
the lowercase names, which the `TrainOptions` namespace (`AllowedNodes`,
`AllowedRelationships`) never defines.  The LLM extraction itself is an
external capability, so the candidate fragments it would return are a
parameter; the result pairs the ingested graph documents with the count the
source returns. -/
def create_knowledge_graph (o : TrainOptConfig) (graph : Option Nat)
    (candidates : List GraphFragment) : Except PyError (List GraphFragment × Nat) :=
  match graph with
  | none => Except.error (PyError.runtimeError "Graph not connected")
  | some _ =>
    let allowedNodes := asAllowedList (pyGetattr o "allowed_nodes" PyVal.pyNone)
    let allowedRels := asAllowedList (pyGetattr o "allowed_relationships" PyVal.pyNone)
    let graph_documents := candidates.map (filterFragment allowedNodes allowedRels)
    Except.ok (graph_documents, graph_documents.length)

/-- `cypher_qa` (`src/components/knowledge_graph.py`): guards the graph
connection, fetches the live schema and delegates question answering to the
external generation capability, whose textual result is the parameter
`answer`. -/
def cypher_qa (graph : Option Nat) (_question answer : String) : Except PyError String :=
  match graph with
  | none => Except.error (PyError.runtimeError "Graph not connected")
  | some _ => Except.ok answer

/-! ## GetEmbeddings (`src/components/embeddings.py`) -/

/-- The provider names `get_embedding_models` recognizes (the `==` branches). -/
def recognizedEmbeddingProviders : List String :=
  ["openai", "cohere", "google_palm", "vertexai", "bedrock"]

/-- Python `str(x)` of an optional string, for the f-string in the wrapped
error message (`str(None) = "None"`). -/
def pyStrOfOption : Option String → String
  | none => "None"
  | some s => s

/-- `GetEmbeddings.get_embedding_models`: `embedding_name or
getattr(self._opt, "EmbeddingModel", None)`; a missing/empty effective name
raises `ValueError` outside the `try`; inside the `try`, an unrecognized name
raises `ValueError` which the blanket `except Exception` immediately re-wraps
into `RuntimeError` (note the wrapped message interpolates
`self._opt.EmbeddingModel`, not the effective name).  Successful provider
instantiation is external and modelled as returning the provider name. -/
def get_embedding_models (optEmbeddingModel : Option String)
    (embedding_name : Option String) : Except PyError String :=
  let effective :=
    match embedding_name with
    | some s => if s = "" then optEmbeddingModel else some s
    | none => optEmbeddingModel
  match effective with
  | none =>
    Except.error (PyError.valueError
      "No embedding provider specified (embedding_name or opt.EmbeddingModel).")
  | some n =>
    if n = "" then
      Except.error (PyError.valueError
        "No embedding provider specified (embedding_name or opt.EmbeddingModel).")
    else if recognizedEmbeddingProviders.contains n then
      Except.ok n
    else
      Except.error (PyError.runtimeError
        ("Failed to initialize embeddings for " ++ n ++ ": Unknown embedding provider: "
          ++ pyStrOfOption optEmbeddingModel))

/-! ## GetLLM (`src/components/llms.py`) -/

/-- The model names accepted by the `openai` branch. -/
def openaiModels : List String := ["gpt-4o", "gpt-4o-mini", "gpt-4", "gpt-3.5-turbo"]

/-- The model names accepted by the `antropic` (sic) branch. -/
def anthropicModels : List String :=
  ["claude-2", "claude-instant-100k", "claude-1", "claude-1.3"]

/-- An initialized chat model; the source passes `llm_name` — the provider
string — where the model name belongs (`model_name=llm_name`, `model=llm_name`). -/
inductive ChatModel where
  | chatOpenAI (model_name : String)
  | chatAnthropic (model : String)
deriving DecidableEq

/-- `GetLLM.get_chat_model` on the explicit-arguments path (both `provider_name`
and `model_name` supplied).  The `google` branch's condition subscripts the
model-name string with a tuple (`model_name["gemini-pro", "gemini-1.5",
"gemini-1.0"]`), so reaching it raises `TypeError` for every model name; the
Anthropic branch tests the typo `"antropic"`; everything else falls through to
`ValueError`.  Model-class instantiation is external and modelled as
succeeding. -/
def get_chat_model (provider_name model_name : String) : Except PyError ChatModel :=
  if provider_name = "" ∨ model_name = "" then
    Except.error (PyError.valueError "No LLM provider or modelname specified.")
  else if provider_name = "openai" ∧ openaiModels.contains model_name then
    Except.ok (ChatModel.chatOpenAI provider_name)
  else if provider_name = "antropic" ∧ anthropicModels.contains model_name then
    Except.ok (ChatModel.chatAnthropic provider_name)
  else if provider_name = "google" then
    Except.error (PyError.typeError "string indices must be integers")
  else
    Except.error (PyError.valueError
      ("Unknown LLM provider: " ++ provider_name ++ " and model name: " ++ model_name))

/-! ## Neo4jStore (`src/components/graph_db.py`) -/

namespace Neo4jStore

/-- The mutable state of a `Neo4jStore` instance: `self.graph` (set by
`_connection`) and `self.vector` (set by `create_hybrid_indexes`); handles to
the external database objects are opaque numbers. -/
structure State where
  graph : Option Nat
  vector : Option Nat
deriving DecidableEq

/-- The methods `class Neo4jStore` actually defines: note there is no
`connect`, only the private `_connection`. -/
def methods : List String :=
  ["__init__", "_connection", "clear", "add_graph_documents",
   "create_hybrid_indexes", "similarity_search", "hybrid_search"]

/-- `Neo4jStore.clear`: inside the `try`, `if not self.graph` raises
`RuntimeError("Graph not connected")`, which the `except` re-wraps; the
external delete query is assumed to succeed.  The pair returns the
(unchanged on failure) state alongside the outcome. -/
def clear (st : State) : State × Except PyError Unit :=
  match st.graph with
  | none =>
    (st, Except.error (PyError.runtimeError
      "Failed to clear Neo4j database: Graph not connected"))
  | some _ => (st, Except.ok ())

/-- `Neo4jStore.add_graph_documents`: same guard-and-wrap pattern as `clear`;
external ingestion assumed to succeed. -/
def add_graph_documents (st : State) (_graph_documents : List GraphFragment)
    (_include_source : Bool) : State × Except PyError Unit :=
  match st.graph with
  | none =>
    (st, Except.error (PyError.runtimeError
      "Failed to add documents to Neo4j: Graph not connected"))
  | some _ => (st, Except.ok ())

/-- `Neo4jStore.create_hybrid_indexes`: the not-connected guard sits outside
the `try` and raises unwrapped; on success the external
`Neo4jVector.from_existing_graph` result is stored in `self.vector`. -/
def create_hybrid_indexes (st : State) : State × Except PyError Nat :=
  match st.graph with
  | none => (st, Except.error (PyError.runtimeError "Graph not connected."))
  | some g => ({ st with vector := some g }, Except.ok g)

end Neo4jStore

/-! ## train (`src/train.py`) -/

/-- Step 3 of `run`: `graph = store.connect()`.  `Neo4jStore` defines no
`connect` attribute (see `Neo4jStore.methods`), so the lookup raises
`AttributeError`. -/
def storeConnectStep : Except PyError Nat :=
  if Neo4jStore.methods.contains "connect" then Except.ok 0
  else Except.error (PyError.attributeError "connect")

/-- `train.run`: parses `TrainOptions`, preprocesses documents with that
namespace as the options object, then connects the graph store.  The remaining
steps (LLM initialization, knowledge-graph ingestion, embeddings, hybrid
indexes, optional Cypher QA) are collapsed into the final `Except.ok true`:
reaching it models an execution that got past the graph-connection step. -/
def run (o : TrainOptConfig) (dirExists : Bool) (files : List FileEntry) :
    Except PyError Bool :=
  match process_documents (procOptOfTrainOpt o) dirExists files with
  | Except.error e => Except.error e
  | Except.ok _docs =>
    match storeConnectStep with
    | Except.error e => Except.error e
    | Except.ok _graph => Except.ok true

/-! ## Splitter lemmas -/

theorem splitGo_nil (cs ov fuel : Nat) : splitGo cs ov fuel ([] : List α) = [] := by
  cases fuel <;> rfl

theorem splitGo_small (cs ov fuel : Nat) (s : List α) (hne : s ≠ []) (h : s.length ≤ cs) :
    splitGo cs ov fuel s = [s] := by
  cases s with
  | nil => exact absurd rfl hne
  | cons a as =>
    cases fuel with
    | zero => rfl
    | succ k =>
      simp only [splitGo]
      rw [if_pos h]

theorem splitGo_step (cs ov fuel : Nat) (s : List α) (h : cs < s.length) :
    splitGo cs ov (fuel + 1) s = s.take cs :: splitGo cs ov fuel (s.drop (cs - ov)) := by
  cases s with
  | nil => simp at h
  | cons a as =>
    simp only [splitGo]
    rw [if_neg (Nat.not_le.mpr h)]

theorem splitGo_head (cs ov fuel : Nat) (s r0 : List α) (rtail : List (List α))
    (h : splitGo cs ov fuel s = r0 :: rtail) : r0 = s ∨ r0 = s.take cs := by
  cases s with
  | nil => rw [splitGo_nil] at h; exact absurd h (by simp)
  | cons a as =>
    cases fuel with
    | zero =>
      have h' : [a :: as] = r0 :: rtail := h
      exact Or.inl (List.cons.inj h').1.symm
    | succ k =>
      by_cases hl : (a :: as).length ≤ cs
      · rw [splitGo_small cs ov (k + 1) (a :: as) (by simp) hl] at h
        exact Or.inl (List.cons.inj h).1.symm
      · rw [splitGo_step cs ov k (a :: as) (Nat.not_le.mp hl)] at h
        exact Or.inr (List.cons.inj h).1.symm

theorem reassemble_splitGo {α : Type} (cs ov : Nat) (hov : ov < cs) :
    ∀ (fuel : Nat) (s : List α), s.length ≤ fuel →
      reassemble ov (splitGo cs ov fuel s) = s := by
  intro fuel
  induction fuel with
  | zero =>
    intro s hs
    have hnil : s = [] := List.length_eq_zero.mp (Nat.le_zero.mp hs)
    subst hnil
    rw [splitGo_nil]
    rfl
  | succ k ih =>
    intro s hs
    by_cases hlen : s.length ≤ cs
    · cases s with
      | nil => rw [splitGo_nil]; rfl
      | cons a as =>
        rw [splitGo_small cs ov (k + 1) (a :: as) (by simp) hlen]
        simp [reassemble]
    · have hlt : cs < s.length := Nat.not_le.mp hlen
      rw [splitGo_step cs ov k s hlt]
      have hstep : 0 < cs - ov := Nat.sub_pos_of_lt hov
      have hlens' : (s.drop (cs - ov)).length = s.length - (cs - ov) := List.length_drop _ _
      have hovlt : ov < (s.drop (cs - ov)).length := by rw [hlens']; omega
      have hfuel' : (s.drop (cs - ov)).length ≤ k := by rw [hlens']; omega
      have hrec := ih (s.drop (cs - ov)) hfuel'
      cases hsg : splitGo cs ov k (s.drop (cs - ov)) with
      | nil =>
        rw [hsg] at hrec
        simp only [reassemble] at hrec
        rw [← hrec] at hovlt
        simp at hovlt
      | cons r0 rtail =>
        rw [hsg] at hrec
        have hr0len : ov ≤ r0.length := by
          rcases splitGo_head cs ov k (s.drop (cs - ov)) r0 rtail hsg with h1 | h1
          · rw [h1]; exact Nat.le_of_lt hovlt
          · rw [h1, List.length_take]
            exact le_min (Nat.le_of_lt hov) (Nat.le_of_lt hovlt)
        simp only [reassemble] at hrec ⊢
        rw [List.map_cons, List.flatten_cons]
        have hjoin : r0.drop ov ++ (rtail.map (List.drop ov)).flatten
            = (s.drop (cs - ov)).drop ov := by
          rw [← hrec, List.drop_append_of_le_length hr0len]
        rw [hjoin, List.drop_drop]
        have hc : cs - ov + ov = cs := Nat.sub_add_cancel (Nat.le_of_lt hov)
        rw [hc, List.take_append_drop]

theorem chunkDocuments_map_text {α : Type} (cs ov : Nat) (docs : List (List α)) :
    (chunkDocuments cs ov docs).map Chunk.text = splitDocuments cs ov docs := by
  simp only [chunkDocuments, List.map_map]
  exact List.enum_map_snd _

/-! ## Claim theorems -/

/-- C1: for every batch of documents, the `chunk_index` values attached by
`process_documents` step 4 form a dense 0-based sequence over the whole batch
(they equal `0, 1, ..., n-1` in order), assigned by one `enumerate` pass after
every document has been split, so no two chunks of a batch share an index. -/
theorem c1_chunk_index_dense {α : Type} (cs ov : Nat) (docs : List (List α)) :
    (chunkDocuments cs ov docs).map Chunk.chunk_index
        = List.range (chunkDocuments cs ov docs).length
      ∧ ((chunkDocuments cs ov docs).map Chunk.chunk_index).Nodup := by
  have hmap : (chunkDocuments cs ov docs).map Chunk.chunk_index
      = List.range (splitDocuments cs ov docs).length := by
    simp only [chunkDocuments, List.map_map]
    exact List.enum_map_fst _
  have hlen : (chunkDocuments cs ov docs).length = (splitDocuments cs ov docs).length := by
    simp [chunkDocuments]
  rw [hmap, hlen]
  exact ⟨rfl, List.nodup_range _⟩

/-- C3: chunking one document and reassembling the chunk texts in chunk-index
order, stripping the `chunk_overlap`-length overlap region from every chunk
after the first, reconstructs the document text exactly (whenever
`chunk_overlap < chunk_size`). -/
theorem c3_roundtrip {α : Type} (cs ov : Nat) (hov : ov < cs) (doc : List α) :
    reassemble ov ((chunkDocuments cs ov [doc]).map Chunk.text) = doc := by
  rw [chunkDocuments_map_text]
  have hsd : splitDocuments cs ov [doc] = splitText cs ov doc := by
    simp [splitDocuments]
  rw [hsd, splitText]
  exact reassemble_splitGo cs ov hov doc.length doc (le_refl _)

/-- Witness for C3 at a concrete input. -/
theorem c3_roundtrip_witness :
    2 < 5 ∧ reassemble 2 ((chunkDocuments 5 2 [List.range 12]).map Chunk.text) = List.range 12 :=
  ⟨by decide, c3_roundtrip 5 2 (by decide) (List.range 12)⟩

/-- C2: the spec scenario — one 1,000-character document (separator-free text,
so the splitter works at character granularity), `chunk_size = 200`,
`chunk_overlap = 40`.  The batch is exactly the six windows starting at
positions 0, 160, 320, 480, 640, 800, each 200 characters long, with
`chunk_index` 0 through 5; consecutive windows overlap in exactly the 40
positions where they meet, so each chunk's last 40 characters equal the next
chunk's first 40. -/
theorem c2_scenario {α : Type} (doc : List α) (h : doc.length = 1000) :
    chunkDocuments 200 40 [doc] =
        [⟨doc.take 200, 0, 200, 40⟩,
         ⟨(doc.drop 160).take 200, 1, 200, 40⟩,
         ⟨(doc.drop 320).take 200, 2, 200, 40⟩,
         ⟨(doc.drop 480).take 200, 3, 200, 40⟩,
         ⟨(doc.drop 640).take 200, 4, 200, 40⟩,
         ⟨doc.drop 800, 5, 200, 40⟩]
      ∧ (∀ c ∈ chunkDocuments 200 40 [doc], (Chunk.text c).length = 200)
      ∧ (chunkDocuments 200 40 [doc]).map Chunk.chunk_index = [0, 1, 2, 3, 4, 5]
      ∧ (∀ a b, (a, b) ∈ (chunkDocuments 200 40 [doc]).zip
            ((chunkDocuments 200 40 [doc]).drop 1) →
          (Chunk.text a).drop ((Chunk.text a).length - 40) = (Chunk.text b).take 40) := by
  have h1 : (200 : Nat) < doc.length := by omega
  have h2 : (200 : Nat) < (doc.drop 160).length := by simp [h]
  have h3 : (200 : Nat) < (doc.drop 320).length := by simp [h]
  have h4 : (200 : Nat) < (doc.drop 480).length := by simp [h]
  have h5 : (200 : Nat) < (doc.drop 640).length := by simp [h]
  have h6 : (doc.drop 800).length ≤ 200 := by simp [h]
  have h7 : doc.drop 800 ≠ [] := by
    intro hx
    have hlx := congrArg List.length hx
    simp [h] at hlx
  have e1 : splitGo 200 40 1000 doc = doc.take 200 :: splitGo 200 40 999 (doc.drop 160) :=
    splitGo_step 200 40 999 doc h1
  have e2 : splitGo 200 40 999 (doc.drop 160)
      = (doc.drop 160).take 200 :: splitGo 200 40 998 (doc.drop 320) := by
    have e := splitGo_step 200 40 998 (doc.drop 160) h2
    rw [List.drop_drop] at e
    exact e
  have e3 : splitGo 200 40 998 (doc.drop 320)
      = (doc.drop 320).take 200 :: splitGo 200 40 997 (doc.drop 480) := by
    have e := splitGo_step 200 40 997 (doc.drop 320) h3
    rw [List.drop_drop] at e
    exact e
  have e4 : splitGo 200 40 997 (doc.drop 480)
      = (doc.drop 480).take 200 :: splitGo 200 40 996 (doc.drop 640) := by
    have e := splitGo_step 200 40 996 (doc.drop 480) h4
    rw [List.drop_drop] at e
    exact e
  have e5 : splitGo 200 40 996 (doc.drop 640)
      = (doc.drop 640).take 200 :: splitGo 200 40 995 (doc.drop 800) := by
    have e := splitGo_step 200 40 995 (doc.drop 640) h5
    rw [List.drop_drop] at e
    exact e
  have e6 : splitGo 200 40 995 (doc.drop 800) = [doc.drop 800] :=
    splitGo_small 200 40 995 (doc.drop 800) h7 h6
  have hsplit : splitText 200 40 doc =
      [doc.take 200, (doc.drop 160).take 200, (doc.drop 320).take 200,
       (doc.drop 480).take 200, (doc.drop 640).take 200, doc.drop 800] := by
    simp only [splitText]
    rw [h, e1, e2, e3, e4, e5, e6]
  have hchunks : chunkDocuments 200 40 [doc] =
      [⟨doc.take 200, 0, 200, 40⟩,
       ⟨(doc.drop 160).take 200, 1, 200, 40⟩,
       ⟨(doc.drop 320).take 200, 2, 200, 40⟩,
       ⟨(doc.drop 480).take 200, 3, 200, 40⟩,
       ⟨(doc.drop 640).take 200, 4, 200, 40⟩,
       ⟨doc.drop 800, 5, 200, 40⟩] := by
    simp only [chunkDocuments, splitDocuments, List.map_cons, List.map_nil,
      List.flatten_cons, List.flatten_nil, List.append_nil]
    rw [hsplit]
    rfl
  refine ⟨hchunks, ?_, ?_, ?_⟩
  · intro c hc
    rw [hchunks] at hc
    simp only [List.mem_cons, List.not_mem_nil, or_false] at hc
    rcases hc with rfl | rfl | rfl | rfl | rfl | rfl <;>
      simp [List.length_take, List.length_drop, h]
  · rw [hchunks]
    rfl
  · intro a b hab
    rw [hchunks] at hab
    simp only [List.drop_succ_cons, List.drop_zero, List.zip_cons_cons, List.zip_nil_right,
      List.mem_cons, List.not_mem_nil, or_false, Prod.mk.injEq] at hab
    rcases hab with ⟨rfl, rfl⟩ | ⟨rfl, rfl⟩ | ⟨rfl, rfl⟩ | ⟨rfl, rfl⟩ | ⟨rfl, rfl⟩ <;>
      simp [List.length_take, List.length_drop, h, List.drop_take, List.take_take,
        List.drop_drop]

/-- Witness for C2 at the concrete representative document `List.range 1000`. -/
theorem c2_scenario_witness :
    (List.range 1000).length = 1000 ∧
      (chunkDocuments 200 40 [List.range 1000] =
          [⟨(List.range 1000).take 200, 0, 200, 40⟩,
           ⟨((List.range 1000).drop 160).take 200, 1, 200, 40⟩,
           ⟨((List.range 1000).drop 320).take 200, 2, 200, 40⟩,
           ⟨((List.range 1000).drop 480).take 200, 3, 200, 40⟩,
           ⟨((List.range 1000).drop 640).take 200, 4, 200, 40⟩,
           ⟨(List.range 1000).drop 800, 5, 200, 40⟩]
        ∧ (∀ c ∈ chunkDocuments 200 40 [List.range 1000], (Chunk.text c).length = 200)
        ∧ (chunkDocuments 200 40 [List.range 1000]).map Chunk.chunk_index = [0, 1, 2, 3, 4, 5]
        ∧ (∀ a b, (a, b) ∈ (chunkDocuments 200 40 [List.range 1000]).zip
              ((chunkDocuments 200 40 [List.range 1000]).drop 1) →
            (Chunk.text a).drop ((Chunk.text a).length - 40) = (Chunk.text b).take 40)) :=
  ⟨by simp, c2_scenario (List.range 1000) (by simp)⟩

/-- C4 (code bug): nothing in `process_documents` checks
`chunk_overlap < chunk_size` and no `ConfigError` is raised.  With
`chunk_size = chunk_overlap = 5` on an 8-character document the windowing makes
no forward progress: it yields a degenerate split — nine chunks from eight
characters, the first chunks all identical repetitions of the same window and
the final chunk the entire remaining text — instead of failing. -/
theorem c4_no_overlap_check_degenerate :
    (splitText 5 5 (List.range 8)).length = 9
      ∧ (splitText 5 5 (List.range 8)).take 2 = [List.range 5, List.range 5]
      ∧ (splitText 5 5 (List.range 8)).getLast? = some (List.range 8) := by
  decide

/-- The candidate fragment used for C5: the extraction capability proposes a
node labeled `Hospital` — a label outside the configured
`AllowedNodes = "Patient,Disease,Medication,Test,Symptom,Doctor"` — plus a
relationship touching it. -/
def c5Fragment : GraphFragment :=
  { nodes := [⟨"p1", "Patient"⟩, ⟨"h1", "Hospital"⟩]
  , relationships := [⟨⟨"p1", "Patient"⟩, ⟨"h1", "Hospital"⟩, "TREATED_AT"⟩] }

/-- C5 (code bug): with the repository's own options (`AllowedNodes`
configured, non-empty), `create_knowledge_graph` applies no label filter at
all: `getattr(opt, "allowed_nodes", None)` misses — the namespace defines
`AllowedNodes`, not `allowed_nodes` — so the transformer is built
unrestricted, and the out-of-set `Hospital` node and its relationship are
emitted unchanged.  (Had the configured list reached the transformer, the
filter of spec §4.3 would have dropped both — last conjunct.) -/
theorem c5_allowed_nodes_ignored :
    trainOptLookup sourceDefaultOpt "allowed_nodes" = none
      ∧ create_knowledge_graph sourceDefaultOpt (some 0) [c5Fragment]
          = Except.ok ([c5Fragment], 1)
      ∧ (⟨"h1", "Hospital"⟩ : GraphNode) ∈ c5Fragment.nodes
      ∧ filterFragment
            (some ["Patient", "Disease", "Medication", "Test", "Symptom", "Doctor"])
            none c5Fragment
          = { nodes := [⟨"p1", "Patient"⟩], relationships := [] } := by
  refine ⟨rfl, rfl, by decide, rfl⟩

/-- C6 (code bug): an unrecognized embedding-provider name — here the
repository's own default `"OpenAI"`, which the case-sensitive branches do not
recognize — makes `get_embedding_models` fail with `RuntimeError` (the
instantiation-failure kind), not `ValueError`: the unknown-name `ValueError`
is raised inside the `try` block and re-wrapped by the blanket
`except Exception`. -/
theorem c6_unknown_embedding_wrapped_as_runtime :
    recognizedEmbeddingProviders.contains "OpenAI" = false
      ∧ get_embedding_models (some "OpenAI") none
          = Except.error (PyError.runtimeError
              "Failed to initialize embeddings for OpenAI: Unknown embedding provider: OpenAI")
      ∧ PyError.runtimeError
            "Failed to initialize embeddings for OpenAI: Unknown embedding provider: OpenAI"
          ≠ PyError.valueError "Unknown embedding provider: OpenAI" := by
  refine ⟨rfl, rfl, by decide⟩

/-- C7 (code bug): for provider `"google"` the branch condition subscripts the
model-name string with a tuple, so the call raises `TypeError` — not the
`ValueError` configuration error — for every model name, valid or not; and the
documented provider spelling `"anthropic"` never matches the `"antropic"`
branch, falling through to the generic `ValueError` even for its documented
model `"claude-2"`. -/
theorem c7_google_branch_type_error :
    get_chat_model "google" "gpt-4"
        = Except.error (PyError.typeError "string indices must be integers")
      ∧ get_chat_model "google" "gemini-pro"
          = Except.error (PyError.typeError "string indices must be integers")
      ∧ get_chat_model "anthropic" "claude-2"
          = Except.error (PyError.valueError
              "Unknown LLM provider: anthropic and model name: claude-2") := by
  refine ⟨rfl, rfl, rfl⟩

/-- C8: every `Neo4jStore` operation other than connecting (`clear`,
`add_graph_documents`, `create_hybrid_indexes`) and the schema-consuming
`cypher_qa` fails on a disconnected store with the not-connected
`RuntimeError` (the code's realization of the spec's `NotConnectedError`) and
leaves the store state unchanged. -/
theorem c8_not_connected (st : Neo4jStore.State) (h : st.graph = none)
    (docs : List GraphFragment) (inc : Bool) (q ans : String) :
    Neo4jStore.clear st
        = (st, Except.error (PyError.runtimeError
            "Failed to clear Neo4j database: Graph not connected"))
      ∧ Neo4jStore.add_graph_documents st docs inc
          = (st, Except.error (PyError.runtimeError
              "Failed to add documents to Neo4j: Graph not connected"))
      ∧ Neo4jStore.create_hybrid_indexes st
          = (st, Except.error (PyError.runtimeError "Graph not connected."))
      ∧ cypher_qa st.graph q ans
          = Except.error (PyError.runtimeError "Graph not connected") := by
  refine ⟨?_, ?_, ?_, ?_⟩ <;>
    simp [Neo4jStore.clear, Neo4jStore.add_graph_documents,
      Neo4jStore.create_hybrid_indexes, cypher_qa, h]

/-- Witness for C8 at the concrete disconnected store. -/
theorem c8_not_connected_witness :
    (⟨none, none⟩ : Neo4jStore.State).graph = none
      ∧ (Neo4jStore.clear ⟨none, none⟩
            = (⟨none, none⟩, Except.error (PyError.runtimeError
                "Failed to clear Neo4j database: Graph not connected"))
          ∧ Neo4jStore.add_graph_documents ⟨none, none⟩ [] true
              = (⟨none, none⟩, Except.error (PyError.runtimeError
                  "Failed to add documents to Neo4j: Graph not connected"))
          ∧ Neo4jStore.create_hybrid_indexes ⟨none, none⟩
              = (⟨none, none⟩, Except.error (PyError.runtimeError "Graph not connected."))
          ∧ cypher_qa (⟨none, none⟩ : Neo4jStore.State).graph "q" "a"
              = Except.error (PyError.runtimeError "Graph not connected")) :=
  ⟨rfl, c8_not_connected ⟨none, none⟩ rfl [] true "q" "a"⟩

/-- C9 (amended): every execution of `run` raises `AttributeError`, but at
the document-preprocessing step — `DocumentProcessor` reads
`self._opt.input_dir`, an attribute the `TrainOptions` namespace never
defines — so no execution reaches the graph-connection step, ingestion, index
construction, or question answering.  The graph-connection defect the claim
describes is real but unreachable: `store.connect()` would itself raise
`AttributeError`, `Neo4jStore` defining only `_connection` (second
conjunct). -/
theorem c9_run_always_attribute_error :
    (∀ (o : TrainOptConfig) (dirExists : Bool) (files : List FileEntry),
        run o dirExists files = Except.error (PyError.attributeError "input_dir"))
      ∧ storeConnectStep = Except.error (PyError.attributeError "connect") := by
  refine ⟨?_, rfl⟩
  intro o dirExists files
  rfl

/-- Counterexample to C9 as stated: on the repository's own default
configuration, `run` does raise `AttributeError`, but for the missing
`input_dir` attribute in the preprocessing step, not for `connect` at the
graph-connection step. -/
theorem c9_counterexample_fails_before_connect :
    run sourceDefaultOpt true [] = Except.error (PyError.attributeError "input_dir")
      ∧ PyError.attributeError "input_dir" ≠ PyError.attributeError "connect" := by
  exact ⟨rfl, by decide⟩

/-- C10 (amended): (a) whenever document loading succeeds with at least one
document (given a well-formed options object), `process_documents` raises
`AttributeError` on the undefined `self._clean_text`, so the
cleaning-and-chunking path completes only on an empty document set; (b) for
every directory all of whose allowed files are `.pdf`/`.txt`/`.md` and whose
allowed extensions admit at least one `.txt` or `.md` file, loading raises
`AttributeError` on the undefined `self._load_text`. -/
theorem c10_missing_helper_methods :
    (∀ (o : ProcOpt) (files : List FileEntry) (raw : List Doc),
        o.input_dir.isSome = true →
        load_all_documents ((o.extensions.getD [".pdf"]).map pyLower) files
          = Except.ok raw →
        raw ≠ [] →
        process_documents o true files = Except.error (PyError.attributeError "_clean_text"))
      ∧ (∀ (exts : List String) (files : List FileEntry),
          (∀ f ∈ files, exts.contains (pyLower f.suffix) = true →
            pyLower f.suffix = ".pdf" ∨ pyLower f.suffix = ".txt"
              ∨ pyLower f.suffix = ".md") →
          (∃ f ∈ files, exts.contains (pyLower f.suffix) = true ∧
            (pyLower f.suffix = ".txt" ∨ pyLower f.suffix = ".md")) →
          load_all_documents exts files
            = Except.error (PyError.attributeError "_load_text")) := by
  constructor
  · intro o files raw hsome hload hne
    obtain ⟨d, hd⟩ := Option.isSome_iff_exists.mp hsome
    cases raw with
    | nil => exact absurd rfl hne
    | cons r rs =>
      simp only [process_documents, hd]
      rw [hload]
      simp [clean_docs]
  · intro exts files
    induction files with
    | nil =>
      intro _ hex
      obtain ⟨f, hf, _⟩ := hex
      exact absurd hf (List.not_mem_nil f)
    | cons f fs ih =>
      intro hall hex
      by_cases hcont : exts.contains (pyLower f.suffix) = true
      · rcases hall f (List.mem_cons_self f fs) hcont with hpdf | htxt | hmd
        · have hex' : ∃ g ∈ fs, exts.contains (pyLower g.suffix) = true ∧
              (pyLower g.suffix = ".txt" ∨ pyLower g.suffix = ".md") := by
            obtain ⟨g, hg, hgc, hgt⟩ := hex
            rcases List.mem_cons.mp hg with rfl | hgfs
            · rcases hgt with hgt | hgt <;> rw [hpdf] at hgt <;> exact absurd hgt (by decide)
            · exact ⟨g, hgfs, hgc, hgt⟩
          have hrec := ih (fun g hg hgc => hall g (List.mem_cons_of_mem f hg) hgc) hex'
          rw [hpdf] at hcont
          simp [load_all_documents, hpdf, hcont, hrec]
        · rw [htxt] at hcont
          simp [load_all_documents, htxt, hcont]
          intro hn
          exact absurd (by simpa using hcont) hn
        · rw [hmd] at hcont
          simp [load_all_documents, hmd, hcont]
          intro hn
          exact absurd (by simpa using hcont) hn
      · have hcont' : exts.contains (pyLower f.suffix) = false := by
          revert hcont
          cases exts.contains (pyLower f.suffix) <;> simp
        have hex' : ∃ g ∈ fs, exts.contains (pyLower g.suffix) = true ∧
            (pyLower g.suffix = ".txt" ∨ pyLower g.suffix = ".md") := by
          obtain ⟨g, hg, hgc, hgt⟩ := hex
          rcases List.mem_cons.mp hg with rfl | hgfs
          · exact absurd hgc hcont
          · exact ⟨g, hgfs, hgc, hgt⟩
        have hrec := ih (fun g hg hgc => hall g (List.mem_cons_of_mem f hg) hgc) hex'
        simp only [load_all_documents, hcont', if_false, Bool.false_eq_true]
        exact hrec

/-- Witness for C10: a one-PDF directory makes `process_documents` fail on
`_clean_text`; a one-`.txt` directory makes loading fail on `_load_text`. -/
theorem c10_missing_helper_methods_witness :
    process_documents ⟨some "docs", some [".pdf"], some 200, some 40⟩ true
        [⟨".pdf", [[1, 2, 3]]⟩] = Except.error (PyError.attributeError "_clean_text")
      ∧ load_all_documents [".txt"] [⟨".txt", []⟩]
          = Except.error (PyError.attributeError "_load_text") :=
  ⟨c10_missing_helper_methods.1 ⟨some "docs", some [".pdf"], some 200, some 40⟩
      [⟨".pdf", [[1, 2, 3]]⟩] [⟨[1, 2, 3]⟩] rfl rfl (by decide),
   c10_missing_helper_methods.2 [".txt"] [⟨".txt", []⟩] (by decide) (by decide)⟩

/-- Counterexample to C10 as stated: a directory whose allowed extensions
admit a `.txt` file can still fail with `ValueError` rather than
`AttributeError`, when an earlier allowed file has an extension with no
registered loader (here `.docx`). -/
theorem c10_counterexample_value_error_first :
    load_all_documents [".docx", ".txt"] [⟨".docx", []⟩, ⟨".txt", []⟩]
        = Except.error (PyError.valueError "Unsupported file extension: .docx")
      ∧ PyError.valueError "Unsupported file extension: .docx"
          ≠ PyError.attributeError "_load_text" := by
  exact ⟨rfl, by decide⟩

end GraphRAG
